import Mathlib

/-!
Shallow embedding of the order-fulfillment backend
(`src/controllers/orderController.js`, `src/controllers/whatsappController.js`).

Modelling conventions:
* JavaScript values that may be absent (`undefined`/`null`) are modelled as
  `Option`; a field that the code requires to be of type string is modelled
  as `Option String`, with `none` covering both absence and a non-string value
  (the code's `typeof x !== 'string'` check rejects exactly those).
* Currency amounts (`price`, `total`) are modelled as `Int`: the spec fixes
  exact equality on the minor-unit representation, and no claim here depends
  on floating-point rounding.
* External collaborators (the Razorpay gateway, the Mongo store, the
  WhatsApp transport, the Twilio SMS gateway, `crypto.createHmac`) are
  parameters of an explicit environment record; the controllers are pure
  functions of the request and that environment, returning the HTTP outcome
  together with the side effects they performed (gateway calls, inserted
  records, notification dispatches).
* JavaScript truthiness on the checked fields: a missing value, the empty
  string and the number 0 are falsy; non-empty strings, any non-zero number,
  arrays and objects are truthy.
-/

namespace BookBackend

/-- One line item of an order.  `quantity` is `Option Int`: `none` models an
absent or `null` quantity (the code reads `item.quantity || 1`). -/
structure Item where
  name : String
  price : Int
  quantity : Option Int
deriving Repr, DecidableEq

/-- Shipping address; every field is required to be a string by
`createOrder`'s validation loop. -/
structure Address where
  fullName : Option String
  street : Option String
  city : Option String
  state : Option String
  zipCode : Option String
  email : Option String
  phone : Option String
deriving Repr, DecidableEq

/-- The document written by `saveOrderToDatabase` (spread of the order data
plus `createdAt`). -/
structure OrderRecord where
  items : List Item
  address : Address
  paymentMethod : String
  total : Int
  paymentId : Option String
  razorpayOrderId : Option String
  status : String
  createdAt : Nat
deriving Repr, DecidableEq

/-- JS template-literal interpolation of a possibly-absent string. -/
def jsStr : Option String → String
  | none => "undefined"
  | some s => s

/-- JS template-literal interpolation of a possibly-absent number. -/
def jsQty : Option Int → String
  | none => "undefined"
  | some n => toString n

/-- Truthiness of a string-typed required field: `!address[field]` together
with the `typeof` check accepts exactly present, non-empty strings. -/
def fieldOk : Option String → Bool
  | none => false
  | some s => s != ""

/-- The validation loop over
`['fullName','street','city','state','zipCode','email','phone']`:
returns the first offending field name, in source order. -/
def firstMissingAddressField (a : Address) : Option String :=
  if !fieldOk a.fullName then some "fullName"
  else if !fieldOk a.street then some "street"
  else if !fieldOk a.city then some "city"
  else if !fieldOk a.state then some "state"
  else if !fieldOk a.zipCode then some "zipCode"
  else if !fieldOk a.email then some "email"
  else if !fieldOk a.phone then some "phone"
  else none

/-- Quantity defaulting, `item.quantity || 1`: an absent, `null` or `0` quantity defaults to 1. -/
def itemQty (it : Item) : Int :=
  match it.quantity with
  | none => 1
  | some q => if q = 0 then 1 else q

/-- The computed sum, `items.reduce((sum, item) => sum + (item.price * (item.quantity || 1)), 0)`. -/
def calculatedTotal (items : List Item) : Int :=
  items.foldl (fun sum it => sum + it.price * itemQty it) 0

/-! ## Phone-number normalization
(`whatsappController.js`, inlined in `sendTextSMS` and `sendMessage`). -/

/-- Digit stripping, `phoneNumber.replace` of every non-digit with nothing: keep only the decimal digits. -/
def digitsOf (s : String) : List Char :=
  s.data.filter Char.isDigit

/-- Number formatting of `sendMessage`, on the digit list:
keep a number already starting `91`, strip a leading trunk `0` before
prepending `91`, otherwise just prepend `91`. -/
def waFinalCore (c : List Char) : List Char :=
  if c.take 2 = ['9', '1'] then c
  else if c.take 1 = ['0'] then ['9', '1'] ++ c.drop 1
  else ['9', '1'] ++ c

/-- Number formatting of `sendTextSMS`, on the digit list: prepend `91`
unless the number already starts with `91` or `+` (the `+` test is on the
digit-stripped string, exactly as in the source). -/
def smsFinalCore (c : List Char) : List Char :=
  if ¬ c.take 2 = ['9', '1'] ∧ ¬ c.take 1 = ['+'] then ['9', '1'] ++ c
  else c

/-- The number `sendMessage` messages (its `finalNumber`). -/
def waFinalNumber (phoneNumber : String) : String :=
  String.mk (waFinalCore (digitsOf phoneNumber))

/-- The number `sendTextSMS` dials, without the leading `+` it prepends
(its `finalNumber`; the recipient is `"+" ++` this value). -/
def smsFinalNumber (phoneNumber : String) : String :=
  String.mk (smsFinalCore (digitsOf phoneNumber))

/-! ## Message templates (`orderController.js`). -/

/-- Template `generateAdminMessage`. -/
def generateAdminMessage (address : Address) (items : List Item) (total : Int)
    (paymentMethod : String) (paymentId : Option String) : String :=
  "\n📦 New Order Received!\n\n👤 Name: " ++ jsStr address.fullName ++
  "\n📞 Phone: " ++ jsStr address.phone ++
  "\n\n📍 Address:\n" ++ jsStr address.street ++ ", " ++ jsStr address.city ++
  ", " ++ jsStr address.state ++ " - " ++ jsStr address.zipCode ++
  "\n\n📚 Items:\n" ++
  String.intercalate "\n"
    (items.map fun item => "- " ++ item.name ++ " x " ++ jsQty item.quantity) ++
  "\n\n💰 Total: ₹" ++ toString total ++
  "\n💳 Payment: " ++ (if paymentMethod = "prepaid" then "Prepaid" else "COD") ++
  "\n🧾 Payment ID: " ++
  (if paymentMethod = "prepaid" then jsStr paymentId else "N/A") ++ "\n  "

/-- Template `generateCustomerMessage`. -/
def generateCustomerMessage (address : Address) (total : Int)
    (paymentMethod : String) : String :=
  "\n🎉 Thank you for your order, " ++ jsStr address.fullName ++
  "!\n\n📚 Total Amount: ₹" ++ toString total ++
  "\n💳 Payment Method: " ++
  (if paymentMethod = "prepaid" then "Prepaid" else "Cash on Delivery") ++
  "\n\n🚚 Your order will be shipped soon!\n\n📦 If you have any questions, feel free to reply to this message.\n\nThank you for shopping with us!\n  "

/-! ## Notification layer (`whatsappController.js`). -/

/-- Environment of the WhatsApp/Twilio service: the behaviour of the
external transports, as observed by one request.
* `waReady`: whether `waitForReady` succeeds (`false` models the
  "WhatsApp client not ready after waiting" throw).
* `waRegistered`: result of `client.isRegisteredUser(chatId)`.
* `waSendResult`: `client.sendMessage(chatId, _)` — `Except.error`
  models a thrown send error, `Except.ok none` a fulfilled promise whose
  result object carries no usable id, `Except.ok (some mid)` an id `mid`.
* `smsSendResult`: the Twilio `messages.create` call for a recipient —
  `Except.error` models a thrown transport error, `Except.ok sid` success.
* `now`: `Date.now()`, used to synthesize a message id. -/
structure NotifEnv where
  waReady : Bool
  waRegistered : String → Bool
  waSendResult : String → Except String (Option String)
  smsSendResult : String → Except String String
  now : Nat

/-- The object `sendMessage` resolves with. -/
structure SendResult where
  success : Bool
  messageId : Option String := none
  error : Option String := none
  phoneNumber : String
deriving Repr, DecidableEq

/-- The object `sendTextSMS` resolves with. -/
structure SmsResult where
  success : Bool
  messageId : Option String := none
  error : Option String := none
  provider : String := "Twilio"
deriving Repr, DecidableEq

/-- Method `WhatsAppService.sendMessage`: readiness gate, number normalization,
registration check, send with catch-all error handling.  The function is
total — every failure is caught and returned as a `success := false`
result, never raised. -/
def sendMessage (env : NotifEnv) (phoneNumber message : String) : SendResult :=
  if !env.waReady then
    { success := false
      error := some "WhatsApp client not ready after waiting"
      phoneNumber := phoneNumber }
  else
    let finalNumber := waFinalNumber phoneNumber
    let chatId := finalNumber ++ "@c.us"
    if !env.waRegistered chatId then
      { success := false
        error := some "Phone number not registered on WhatsApp"
        phoneNumber := finalNumber }
    else
      match env.waSendResult chatId with
      | .error e =>
        { success := false, error := some e, phoneNumber := phoneNumber }
      | .ok mid =>
        { success := true
          messageId := some (mid.getD ("msg_" ++ toString env.now))
          phoneNumber := finalNumber }

/-- Method `WhatsAppService.sendTextSMS`: Twilio send with catch-all error
handling; total, never raises. -/
def sendTextSMS (env : NotifEnv) (phoneNumber message : String) : SmsResult :=
  match env.smsSendResult ("+" ++ smsFinalNumber phoneNumber) with
  | .ok sid => { success := true, messageId := some sid }
  | .error e => { success := false, error := some e }

/-- Dispatcher `sendNotifications` (`orderController.js`): three independent channel
attempts — admin WhatsApp, customer WhatsApp, customer SMS — reported as
an object with one `'Sent'`/`'Failed'` entry per channel, modelled as an
association list in the source's key order.  Total: the three sends never
raise, so the dispatcher never raises and never short-circuits. -/
def sendNotifications (env : NotifEnv) (address : Address) (items : List Item)
    (total : Int) (paymentMethod : String) (paymentId : Option String) :
    List (String × String) :=
  let adminMessage := generateAdminMessage address items total paymentMethod paymentId
  let customerMessage := generateCustomerMessage address total paymentMethod
  let adminResult := sendMessage env "919301680755" adminMessage
  let customerResult := sendMessage env (jsStr address.phone) customerMessage
  let smsResult := sendTextSMS env (jsStr address.phone) customerMessage
  [("admin", if adminResult.success then "Sent" else "Failed"),
   ("customer", if customerResult.success then "Sent" else "Failed"),
   ("sms", if smsResult.success then "Sent" else "Failed")]

/-! ## Order controllers (`orderController.js`). -/

/-- The object `razorpay.orders.create` resolves with. -/
structure RzpOrder where
  id : String
  amount : Int
  currency : String
deriving Repr, DecidableEq

/-- Environment of the order controllers.
* `secret`: `process.env.RAZORPAY_KEY_SECRET`.
* `hmac`: `crypto.createHmac('sha256', secret).update(msg).digest('hex')`,
  abstracted as a function of the secret and the message (Node's crypto
  library is an external collaborator, not repository code).
* `rzpCreate`: `razorpay.orders.create({amount, currency, receipt})` —
  `Except.error` models a thrown gateway error.
* `dbInsert`: `db.collection("orders").insertOne(...)` — `Except.ok id`
  yields the inserted id, `Except.error` models a thrown store error.
* `notif`: the notification-layer environment.
* `now`: `Date.now()` / `new Date()` at request time. -/
structure Env where
  secret : String
  hmac : String → String → String
  rzpCreate : Int → String → String → Except String RzpOrder
  dbInsert : Except String Nat
  notif : NotifEnv
  now : Nat

/-- Response bodies the controllers produce. -/
inductive RespBody where
  | error (msg : String)
  | intent (orderId : String) (amount : Int) (currency : String)
  | orderPlaced (message : String) (orderId : Nat)
      (notifications : List (String × String))
deriving Repr, DecidableEq

/-- HTTP outcome of one controller invocation, together with the side
effects it performed: number of payment-gateway calls, the records it
inserted into the `orders` collection (in order), and the number of
`sendNotifications` dispatches. -/
structure HttpOutcome where
  status : Nat
  body : RespBody
  gatewayCalls : Nat := 0
  inserted : List OrderRecord := []
  notifDispatches : Nat := 0
deriving Repr, DecidableEq

/-- Request body of `POST /api/orders/create`. -/
structure CreateOrderReq where
  items : Option (List Item)
  address : Option Address
  paymentMethod : Option String
  total : Option Int
deriving Repr, DecidableEq

/-- Controller `createOrder`: validation (required fields, address string fields,
total against the computed item sum), then the prepaid branch (gateway
intent, nothing persisted) or the COD branch (persist confirmed with null
payment id, notify, respond). -/
def createOrder (env : Env) (req : CreateOrderReq) : HttpOutcome :=
  match req.items, req.address, req.paymentMethod, req.total with
  | some items, some address, some paymentMethod, some total =>
    if paymentMethod = "" ∨ total = 0 then
      { status := 400, body := .error "Missing required fields" }
    else
      match firstMissingAddressField address with
      | some field =>
        { status := 400
          body := .error ("Address field \"" ++ field ++
            "\" is required and must be a string") }
      | none =>
        if calculatedTotal items ≠ total then
          { status := 400
            body := .error "Total does not match the sum of item prices" }
        else if paymentMethod = "prepaid" then
          match env.rzpCreate (total * 100) "INR" ("receipt_" ++ toString env.now) with
          | .ok order =>
            { status := 200
              body := .intent order.id order.amount order.currency
              gatewayCalls := 1 }
          | .error e =>
            { status := 500
              body := .error ("Error creating order: " ++ e)
              gatewayCalls := 1 }
        else if paymentMethod = "cod" then
          let orderData : OrderRecord :=
            { items := items, address := address, paymentMethod := paymentMethod
              total := total, paymentId := none, razorpayOrderId := none
              status := "confirmed", createdAt := env.now }
          match env.dbInsert with
          | .error e =>
            { status := 500, body := .error ("Error creating order: " ++ e) }
          | .ok insertedId =>
            let notifications :=
              sendNotifications env.notif address items total paymentMethod none
            { status := 200
              body := .orderPlaced "COD Order placed successfully" insertedId
                notifications
              inserted := [orderData]
              notifDispatches := 1 }
        else
          { status := 400, body := .error "Invalid payment method" }
  | _, _, _, _ =>
    { status := 400, body := .error "Missing required fields" }

/-- Request body of `POST /api/orders/verify`. -/
structure VerifyReq where
  razorpay_order_id : Option String
  razorpay_payment_id : Option String
  razorpay_signature : Option String
  items : Option (List Item)
  address : Option Address
  total : Option Int
deriving Repr, DecidableEq

/-- The signature comparison of `verifyPayment`:
`generatedSignature === razorpay_signature` where `generatedSignature` is
the hex HMAC-SHA256 of `orderId + '|' + paymentId` under the shared
secret. -/
def signatureOk (env : Env) (orderId paymentId signature : String) : Bool :=
  env.hmac env.secret (orderId ++ "|" ++ paymentId) == signature

/-- Controller `verifyPayment`: required-field checks, signature verification, and on
success persistence of the confirmed prepaid order followed by
notification dispatch; on mismatch a 400 with no side effects. -/
def verifyPayment (env : Env) (req : VerifyReq) : HttpOutcome :=
  match req.razorpay_order_id, req.razorpay_payment_id, req.razorpay_signature with
  | some orderId, some paymentId, some signature =>
    if orderId = "" ∨ paymentId = "" ∨ signature = "" then
      { status := 400, body := .error "Missing required fields for verification" }
    else
      match req.items, req.address, req.total with
      | some items, some address, some total =>
        if total = 0 then
          { status := 400, body := .error "Missing order details for saving" }
        else if signatureOk env orderId paymentId signature then
          let orderData : OrderRecord :=
            { items := items, address := address, paymentMethod := "prepaid"
              total := total, paymentId := some paymentId
              razorpayOrderId := some orderId
              status := "confirmed", createdAt := env.now }
          match env.dbInsert with
          | .error e =>
            { status := 500, body := .error ("Error verifying payment: " ++ e) }
          | .ok insertedId =>
            let notifications :=
              sendNotifications env.notif address items total "prepaid"
                (some paymentId)
            { status := 200
              body := .orderPlaced "Payment verified and order saved successfully"
                insertedId notifications
              inserted := [orderData]
              notifDispatches := 1 }
        else
          { status := 400, body := .error "Invalid payment signature" }
      | _, _, _ =>
        { status := 400, body := .error "Missing order details for saving" }
  | _, _, _ =>
    { status := 400, body := .error "Missing required fields for verification" }

/-- Request body of `POST /api/orders/save` (legacy direct-save path). -/
structure SaveOrderReq where
  items : Option (List Item)
  address : Option Address
  paymentMethod : Option String
  total : Option Int
  paymentId : Option String
  status : Option String
deriving Repr, DecidableEq

/-- Controller `saveOrder`: the legacy path — persists the caller-supplied order
(with `paymentId` nulled unless the method is `prepaid` and the supplied
`status` stored as-is) and notifies; no total or invariant check. -/
def saveOrder (env : Env) (req : SaveOrderReq) : HttpOutcome :=
  match req.items, req.address, req.paymentMethod, req.total, req.status with
  | some items, some address, some paymentMethod, some total, some status =>
    if paymentMethod = "" ∨ total = 0 ∨ status = "" then
      { status := 400, body := .error "Missing required fields for saving order" }
    else if !fieldOk address.phone then
      { status := 400, body := .error "Phone number is required and must be a string" }
    else
      let orderData : OrderRecord :=
        { items := items, address := address, paymentMethod := paymentMethod
          total := total
          paymentId := if paymentMethod = "prepaid" then req.paymentId else none
          razorpayOrderId := none
          status := status, createdAt := env.now }
      match env.dbInsert with
      | .error e =>
        { status := 500, body := .error ("Failed to save order to database") }
      | .ok insertedId =>
        let notifications :=
          sendNotifications env.notif address items total paymentMethod req.paymentId
        { status := 200
          body := .orderPlaced "Order saved successfully" insertedId notifications
          inserted := [orderData]
          notifDispatches := 1 }
  | _, _, _, _, _ =>
    { status := 400, body := .error "Missing required fields for saving order" }

/-- Flip bit `k` of the code of the `j`-th character of `s`.  Apparatus for
the single-bit-flip property of signature verification: a hex-encoded
signature is an ASCII string, and flipping any single bit of its byte
representation is flipping bit `k < 8` of one character. -/
def flipBitAt (s : String) (j k : Nat) : String :=
  match s.data[j]? with
  | none => s
  | some c => String.mk (s.data.set j (Char.ofNat (c.toNat ^^^ (1 <<< k))))

/-! ## Helper lemmas. -/

theorem toNat_ofNat_of_lt {n : Nat} (h : n < 55296) : (Char.ofNat n).toNat = n := by
  unfold Char.ofNat
  rw [dif_pos (Or.inl h)]
  rfl

theorem xor_ne_self {n m : Nat} (hm : m ≠ 0) : n ^^^ m ≠ n := by
  intro h
  apply hm
  have h2 : n ^^^ (n ^^^ m) = n ^^^ n := congrArg (fun x => n ^^^ x) h
  rwa [← Nat.xor_assoc, Nat.xor_self, Nat.zero_xor] at h2

theorem set_ne_of_ne {l : List Char} {j : Nat} {c : Char} (hj : j < l.length)
    (hne : c ≠ l[j]) : l.set j c ≠ l := by
  intro h
  apply hne
  have h1 : (l.set j c)[j]? = some c := List.getElem?_set_self hj
  rw [h, List.getElem?_eq_getElem hj] at h1
  exact Option.some_injective _ h1.symm

/-- Flipping a low bit of an ASCII character of `s` changes `s`. -/
theorem flipBitAt_ne (s : String) (j k : Nat) (hj : j < s.data.length) (hk : k < 8)
    (hascii : ∀ c ∈ s.data, c.toNat < 128) : flipBitAt s j k ≠ s := by
  have hget : s.data[j]? = some s.data[j] := List.getElem?_eq_getElem hj
  unfold flipBitAt
  rw [hget]
  intro h
  have hdata : s.data.set j (Char.ofNat (s.data[j].toNat ^^^ (1 <<< k))) = s.data :=
    congrArg String.data h
  have hc : s.data[j].toNat < 128 := hascii _ (List.getElem_mem hj)
  have hm : (1 <<< k) ≠ 0 := by simp [Nat.shiftLeft_eq]
  have hmlt : (1 <<< k) < 256 := by
    rw [Nat.shiftLeft_eq, Nat.one_mul]
    calc (2 : Nat) ^ k ≤ 2 ^ 7 := Nat.pow_le_pow_right (by norm_num) (by omega)
    _ < 256 := by norm_num
  have hxlt : s.data[j].toNat ^^^ (1 <<< k) < 55296 := by
    have : s.data[j].toNat ^^^ (1 <<< k) < 256 :=
      Nat.xor_lt_two_pow (n := 8) (by omega) (by omega)
    omega
  have hne : Char.ofNat (s.data[j].toNat ^^^ (1 <<< k)) ≠ s.data[j] := by
    intro heq
    have : s.data[j].toNat ^^^ (1 <<< k) = s.data[j].toNat := by
      conv_rhs => rw [← heq]
      rw [toNat_ofNat_of_lt hxlt]
    exact xor_ne_self hm this
  exact set_ne_of_ne hj hne hdata

theorem digitsOf_all (s : String) : ∀ x ∈ digitsOf s, x.isDigit = true := by
  intro x hx
  exact (List.mem_filter.mp hx).2

theorem digitsOf_mk_eq (l : List Char) (hl : ∀ x ∈ l, x.isDigit = true) :
    digitsOf (String.mk l) = l :=
  List.filter_eq_self.mpr hl

theorem waFinalCore_take_two (l : List Char) : (waFinalCore l).take 2 = ['9', '1'] := by
  unfold waFinalCore
  split_ifs with h1 h2
  · exact h1
  · rfl
  · rfl

theorem waFinalCore_digits (l : List Char) (hl : ∀ x ∈ l, x.isDigit = true) :
    ∀ x ∈ waFinalCore l, x.isDigit = true := by
  unfold waFinalCore
  split_ifs with h1 h2
  · exact hl
  · intro x hx
    rcases hx with _ | ⟨_, hx⟩
    · decide
    · rcases hx with _ | ⟨_, hx⟩
      · decide
      · exact hl x (List.mem_of_mem_drop hx)
  · intro x hx
    rcases hx with _ | ⟨_, hx⟩
    · decide
    · rcases hx with _ | ⟨_, hx⟩
      · decide
      · exact hl x hx

theorem waFinalCore_idem (l : List Char) : waFinalCore (waFinalCore l) = waFinalCore l := by
  have h := waFinalCore_take_two l
  generalize hm : waFinalCore l = m at h ⊢
  rw [waFinalCore, if_pos h]

theorem smsFinalCore_eq_waFinalCore_iff (c : List Char)
    (hdig : ∀ x ∈ c, x.isDigit = true) :
    smsFinalCore c = waFinalCore c ↔ ¬ c.take 1 = ['0'] := by
  rcases c with _ | ⟨a, rest⟩
  · simp [smsFinalCore, waFinalCore]
  · have ht2 : (a :: rest).take 2 = a :: rest.take 1 := rfl
    have ht1 : (a :: rest).take 1 = [a] := rfl
    by_cases h91 : (a :: rest).take 2 = ['9', '1']
    · have ha : a = '9' := by
        rw [ht2] at h91
        injection h91 with h _
      rw [smsFinalCore, waFinalCore, if_neg (fun hc => hc.1 h91), if_pos h91, ht1, ha]
      simp
    · by_cases h0 : a = '0'
      · subst h0
        rw [smsFinalCore, waFinalCore,
          if_pos ⟨h91, by rw [ht1]; decide⟩, if_neg h91, if_pos (by rw [ht1])]
        constructor
        · intro h
          have := congrArg List.length h
          simp at this
        · intro h
          exact absurd ht1 h
      · have hd : a.isDigit = true := hdig a (List.mem_cons_self a rest)
        have hplus : ¬ (a :: rest).take 1 = ['+'] := by
          rw [ht1]
          intro h
          injection h with h
          rw [h] at hd
          exact absurd hd (by decide)
        have h0' : ¬ (a :: rest).take 1 = ['0'] := by
          rw [ht1]
          intro h
          injection h with h
          exact h0 h
        rw [smsFinalCore, waFinalCore, if_pos ⟨h91, hplus⟩, if_neg h91, if_neg h0']
        exact iff_of_true rfl h0'

/-! ## Concrete fixtures used by witnesses and counterexamples. -/

/-- A fully valid shipping address. -/
def addrX : Address :=
  { fullName := some "Asha Kumar", street := some "12 Lake Rd", city := some "Indore",
    state := some "MP", zipCode := some "452001", email := some "asha@example.com",
    phone := some "9301680755" }

/-- A notification environment where every transport call succeeds. -/
def notifOk : NotifEnv :=
  { waReady := true, waRegistered := fun _ => true,
    waSendResult := fun _ => .ok (some "m1"),
    smsSendResult := fun _ => .ok "s1", now := 5 }

/-- An environment where the gateway, the store and every notification
transport succeed; the HMAC collaborator is instantiated with a concrete
injective-enough function. -/
def envX : Env :=
  { secret := "k", hmac := fun sec msg => sec ++ ":" ++ msg,
    rzpCreate := fun a _ _ => .ok { id := "rzp1", amount := a, currency := "INR" },
    dbInsert := .ok 1, notif := notifOk, now := 5 }

/-! ## Claims. -/

/-- Claim C3: Signature verification is symmetric: for every orderId,
paymentId and secret (the HMAC collaborator being arbitrary), verifying the
signature `HMAC-SHA256(secret, orderId + "|" + paymentId)` hex-encoded
succeeds, and every signature differing from this value in any single bit
(bit `k < 8` of any character of the ASCII hex encoding) is rejected. -/
theorem C3_signature_symmetric (env : Env) (orderId paymentId : String) :
    signatureOk env orderId paymentId
      (env.hmac env.secret (orderId ++ "|" ++ paymentId)) = true ∧
    ∀ j k, j < (env.hmac env.secret (orderId ++ "|" ++ paymentId)).data.length →
      k < 8 →
      (∀ c ∈ (env.hmac env.secret (orderId ++ "|" ++ paymentId)).data,
        c.toNat < 128) →
      signatureOk env orderId paymentId
        (flipBitAt (env.hmac env.secret (orderId ++ "|" ++ paymentId)) j k) = false := by
  constructor
  · simp [signatureOk]
  · intro j k hj hk hascii
    have hne := flipBitAt_ne _ j k hj hk hascii
    simp only [signatureOk, beq_eq_false_iff_ne]
    exact Ne.symm hne

/-- Witness for C3 at a concrete environment, order id, payment id and a
flip of bit 0 of character 0 of the signature. -/
theorem C3_signature_symmetric_witness :
    signatureOk envX "o" "p" (envX.hmac envX.secret ("o" ++ "|" ++ "p")) = true ∧
    signatureOk envX "o" "p"
      (flipBitAt (envX.hmac envX.secret ("o" ++ "|" ++ "p")) 0 0) = false :=
  ⟨(C3_signature_symmetric envX "o" "p").1,
   (C3_signature_symmetric envX "o" "p").2 0 0 (by decide) (by decide) (by decide)⟩

/-- Claim C7 counterexample: The claim says the SMS path dials (ignoring the
leading `+`) the same number the WhatsApp path messages, for every input.
On `"09301680755"` the SMS path keeps the leading trunk `0` and prepends
`91`, while the WhatsApp path strips the `0` first: the two numbers
differ. -/
theorem C7_counterexample :
    smsFinalNumber "09301680755" = "9109301680755" ∧
    waFinalNumber "09301680755" = "919301680755" ∧
    smsFinalNumber "09301680755" ≠ waFinalNumber "09301680755" := by
  refine ⟨by decide, by decide, by decide⟩

/-- Claim C7, amended: The SMS and WhatsApp phone normalizations agree on
exactly those inputs whose digit-stripped form does not start with the
national trunk prefix `0`; on a leading `0` the SMS path keeps the `0`
while the WhatsApp path strips it before prepending `91`. -/
theorem C7_normalizations_agree_iff (p : String) :
    smsFinalNumber p = waFinalNumber p ↔ ¬ (digitsOf p).take 1 = ['0'] := by
  unfold smsFinalNumber waFinalNumber
  rw [show (String.mk (smsFinalCore (digitsOf p)) =
      String.mk (waFinalCore (digitsOf p))) ↔
      smsFinalCore (digitsOf p) = waFinalCore (digitsOf p) from
    ⟨fun h => by injection h, fun h => by rw [h]⟩]
  exact smsFinalCore_eq_waFinalCore_iff _ (digitsOf_all p)

/-- Claim C8: The WhatsApp-path phone normalization is idempotent, and the
three inputs `"09301680755"`, `"919301680755"` and `"9301680755"` all
normalize to the same canonical value `"919301680755"`. -/
theorem C8_normalize_idempotent :
    (∀ p : String, waFinalNumber (waFinalNumber p) = waFinalNumber p) ∧
    waFinalNumber "09301680755" = "919301680755" ∧
    waFinalNumber "919301680755" = "919301680755" ∧
    waFinalNumber "9301680755" = "919301680755" := by
  refine ⟨fun p => ?_, by decide, by decide, by decide⟩
  unfold waFinalNumber
  rw [digitsOf_mk_eq _ (waFinalCore_digits _ (digitsOf_all p)), waFinalCore_idem]

/-- An initiate-order request `createOrder` rejects during validation:
a missing (or JS-falsy) top-level field, a missing/empty address string
field, or a supplied total different from the computed item sum (with the
code's quantity defaulting). -/
def createOrderInvalid (req : CreateOrderReq) : Prop :=
  req.items = none ∨ req.address = none ∨ req.paymentMethod = none ∨
  req.total = none ∨ req.paymentMethod = some "" ∨ req.total = some 0 ∨
  (∃ a, req.address = some a ∧ firstMissingAddressField a ≠ none) ∨
  (∃ items total, req.items = some items ∧ req.total = some total ∧
    calculatedTotal items ≠ total)

/-- Claim C1 counterexample: The claim requires a 400 whenever the supplied
total differs from `Σ price × quantity`.  The code computes the sum with
`item.quantity || 1`, so an item with quantity 0 is counted as quantity 1:
a COD request with one item of price 10 and quantity 0 and supplied total
10 (whereas `10 × 0 = 0 ≠ 10`) passes validation, is persisted, and gets a
200 response. -/
theorem C1_counterexample :
    (10 : Int) * 0 ≠ 10 ∧
    (createOrder envX
      { items := some [{ name := "b", price := 10, quantity := some 0 }],
        address := some addrX, paymentMethod := some "cod",
        total := some 10 }).status = 200 ∧
    (createOrder envX
      { items := some [{ name := "b", price := 10, quantity := some 0 }],
        address := some addrX, paymentMethod := some "cod",
        total := some 10 }).inserted.length = 1 := by
  refine ⟨by decide, by decide, by decide⟩

/-- Claim C1, amended: For every initiate-order request whose supplied
total is not equal to the sum over items of price times quantity — with an
absent, null or zero quantity counted as 1, as the code computes it — or
whose items/address/paymentMethod/total fields are missing (or JS-falsy),
or whose required address string fields are missing or empty, `createOrder`
returns 400, makes no payment-gateway call, persists nothing, and
dispatches no notification. -/
theorem C1_invalid_request_rejected (env : Env) (req : CreateOrderReq)
    (h : createOrderInvalid req) :
    (createOrder env req).status = 400 ∧ (createOrder env req).gatewayCalls = 0 ∧
    (createOrder env req).inserted = [] ∧
    (createOrder env req).notifDispatches = 0 := by
  rcases hi : req.items with _ | items
  · simp [createOrder, hi]
  rcases ha : req.address with _ | address
  · simp [createOrder, hi, ha]
  rcases hp : req.paymentMethod with _ | paymentMethod
  · simp [createOrder, hi, ha, hp]
  rcases ht : req.total with _ | total
  · simp [createOrder, hi, ha, hp, ht]
  simp only [createOrder, hi, ha, hp, ht]
  by_cases hfalsy : paymentMethod = "" ∨ total = 0
  · rw [if_pos hfalsy]
    exact ⟨rfl, rfl, rfl, rfl⟩
  · rw [if_neg hfalsy]
    rcases hfield : firstMissingAddressField address with _ | f
    · have hmismatch : calculatedTotal items ≠ total := by
        rcases h with h | h | h | h | h | h | ⟨a, ha2, hbad⟩ | ⟨items2, total2, hi2, ht2, hne⟩
        · rw [hi] at h; exact absurd h (by simp)
        · rw [ha] at h; exact absurd h (by simp)
        · rw [hp] at h; exact absurd h (by simp)
        · rw [ht] at h; exact absurd h (by simp)
        · rw [hp] at h
          exact absurd (Option.some_injective _ h) (fun he => hfalsy (Or.inl he))
        · rw [ht] at h
          exact absurd (Option.some_injective _ h) (fun he => hfalsy (Or.inr he))
        · rw [ha] at ha2
          have := Option.some_injective _ ha2
          rw [← this] at hbad
          exact absurd hfield hbad
        · rw [hi] at hi2
          rw [ht] at ht2
          rw [← Option.some_injective _ hi2, ← Option.some_injective _ ht2] at hne
          exact hne
      rw [if_pos hmismatch]
      exact ⟨rfl, rfl, rfl, rfl⟩
    · exact ⟨rfl, rfl, rfl, rfl⟩

/-- Witness for C1 (amended) at a concrete invalid request (COD, one item
of price 10 and quantity 2, supplied total 10 ≠ 20). -/
theorem C1_invalid_request_rejected_witness :
    createOrderInvalid
      { items := some [{ name := "b", price := 10, quantity := some 2 }],
        address := some addrX, paymentMethod := some "cod", total := some 10 } ∧
    (createOrder envX
      { items := some [{ name := "b", price := 10, quantity := some 2 }],
        address := some addrX, paymentMethod := some "cod",
        total := some 10 }).status = 400 ∧
    (createOrder envX
      { items := some [{ name := "b", price := 10, quantity := some 2 }],
        address := some addrX, paymentMethod := some "cod",
        total := some 10 }).inserted = [] := by
  have hinv : createOrderInvalid
      { items := some [{ name := "b", price := 10, quantity := some 2 }],
        address := some addrX, paymentMethod := some "cod", total := some 10 } :=
    Or.inr (Or.inr (Or.inr (Or.inr (Or.inr (Or.inr (Or.inr
      ⟨[{ name := "b", price := 10, quantity := some 2 }], 10, rfl, rfl,
        by decide⟩))))))
  have hmain := C1_invalid_request_rejected envX _ hinv
  exact ⟨hinv, hmain.1, hmain.2.2.1⟩

/-- Characterization of the successful COD branch of `createOrder`. -/
theorem createOrder_cod_eq (env : Env) (items : List Item) (address : Address)
    (total : Int) (n : Nat)
    (hmiss : firstMissingAddressField address = none)
    (htot : calculatedTotal items = total) (h0 : total ≠ 0)
    (hdb : env.dbInsert = .ok n) :
    createOrder env
      { items := some items, address := some address,
        paymentMethod := some "cod", total := some total } =
      { status := 200
        body := .orderPlaced "COD Order placed successfully" n
          (sendNotifications env.notif address items total "cod" none)
        gatewayCalls := 0
        inserted := [{ items := items, address := address, paymentMethod := "cod",
                       total := total, paymentId := none, razorpayOrderId := none,
                       status := "confirmed", createdAt := env.now }]
        notifDispatches := 1 } := by
  simp only [createOrder, hmiss, hdb]
  rw [if_neg (show ¬(("cod" : String) = "" ∨ total = 0) by
        rintro (h | h)
        · exact absurd h (by decide)
        · exact h0 h)]
  rw [if_neg (not_not_intro htot)]
  rw [if_neg (show ¬("cod" : String) = "prepaid" by decide), if_pos trivial]

/-- Spec scenario A's request: COD, items totaling 500, valid address. -/
def reqCod : CreateOrderReq :=
  { items := some [{ name := "Book", price := 250, quantity := some 2 }],
    address := some addrX, paymentMethod := some "cod", total := some 500 }

/-- Claim C5 counterexample: The claim requires the COD response to carry
exactly two per-channel notification outcomes.  On a valid COD request the
code responds with three outcomes — admin WhatsApp, customer WhatsApp and
customer SMS. -/
theorem C5_counterexample :
    (createOrder envX reqCod).status = 200 ∧
    (createOrder envX reqCod).body =
      .orderPlaced "COD Order placed successfully" 1
        [("admin", "Sent"), ("customer", "Sent"), ("sms", "Sent")] ∧
    ([("admin", "Sent"), ("customer", "Sent"), ("sms", "Sent")] :
      List (String × String)).length ≠ 2 := by
  refine ⟨by decide, by decide, by decide⟩

/-- Claim C5, amended: For every valid COD initiate-order request (fields
present, address fields present, total equal to the computed item sum,
store insert succeeding), the order is persisted with status `confirmed`
and null `paymentId`, notifications are dispatched before responding, and
the 200 response carries the generated order identifier plus exactly
*three* per-channel notification outcomes (admin WhatsApp, customer
WhatsApp, customer SMS). -/
theorem C5_cod_flow (env : Env) (items : List Item) (address : Address)
    (total : Int) (n : Nat)
    (hmiss : firstMissingAddressField address = none)
    (htot : calculatedTotal items = total) (h0 : total ≠ 0)
    (hdb : env.dbInsert = .ok n) :
    (createOrder env
      { items := some items, address := some address,
        paymentMethod := some "cod", total := some total }).status = 200 ∧
    (createOrder env
      { items := some items, address := some address,
        paymentMethod := some "cod", total := some total }).inserted =
      [{ items := items, address := address, paymentMethod := "cod",
         total := total, paymentId := none, razorpayOrderId := none,
         status := "confirmed", createdAt := env.now }] ∧
    (createOrder env
      { items := some items, address := some address,
        paymentMethod := some "cod", total := some total }).notifDispatches = 1 ∧
    (createOrder env
      { items := some items, address := some address,
        paymentMethod := some "cod", total := some total }).body =
      .orderPlaced "COD Order placed successfully" n
        (sendNotifications env.notif address items total "cod" none) ∧
    (sendNotifications env.notif address items total "cod" none).length = 3 := by
  rw [createOrder_cod_eq env items address total n hmiss htot h0 hdb]
  exact ⟨rfl, rfl, rfl, rfl, rfl⟩

/-- Witness for C5 (amended) at scenario A's concrete request. -/
theorem C5_cod_flow_witness :
    firstMissingAddressField addrX = none ∧
    calculatedTotal [{ name := "Book", price := 250, quantity := some 2 }] = 500 ∧
    (createOrder envX reqCod).status = 200 ∧
    (createOrder envX reqCod).inserted =
      [{ items := [{ name := "Book", price := 250, quantity := some 2 }],
         address := addrX, paymentMethod := "cod", total := 500,
         paymentId := none, razorpayOrderId := none, status := "confirmed",
         createdAt := 5 }] ∧
    (sendNotifications envX.notif addrX
      [{ name := "Book", price := 250, quantity := some 2 }] 500 "cod" none).length = 3 := by
  have h := C5_cod_flow envX [{ name := "Book", price := 250, quantity := some 2 }]
    addrX 500 1 (by decide) (by decide) (by decide) rfl
  exact ⟨by decide, by decide, h.1, h.2.1, h.2.2.2.2⟩

/-- A confirm-payment request whose signature is exactly the recomputed
HMAC under `envX`, but whose `items` field is missing. -/
def reqVerifyNoItems : VerifyReq :=
  { razorpay_order_id := some "o1", razorpay_payment_id := some "p1",
    razorpay_signature := some "k:o1|p1", items := none,
    address := some addrX, total := some 5 }

/-- Claim C2 counterexample: The claim states that for *every* prepaid
confirm-payment request an order record is persisted iff the recomputed
HMAC matches the supplied signature.  Here the supplied signature equals
the recomputed HMAC, yet the request is rejected with 400 (missing
`items`) and nothing is persisted — the "if" direction fails. -/
theorem C2_counterexample :
    signatureOk envX "o1" "p1" "k:o1|p1" = true ∧
    reqVerifyNoItems.razorpay_signature = some "k:o1|p1" ∧
    (verifyPayment envX reqVerifyNoItems).status = 400 ∧
    (verifyPayment envX reqVerifyNoItems).inserted = [] := by
  refine ⟨by decide, rfl, by decide, by decide⟩

/-- Claim C2, amended: For every prepaid confirm-payment request that
carries the gateway order id, payment id and signature (non-empty) and the
order details (items, address, non-zero total), an order record is
persisted iff the recomputed HMAC matches the supplied signature and the
store insert succeeds; on signature mismatch the response is 400, no
record is inserted, and no notification is attempted. -/
theorem C2_persist_iff_signature (env : Env) (req : VerifyReq)
    (oid pid sig : String) (items : List Item) (address : Address) (total : Int)
    (h1 : req.razorpay_order_id = some oid)
    (h2 : req.razorpay_payment_id = some pid)
    (h3 : req.razorpay_signature = some sig)
    (ho : oid ≠ "") (hp : pid ≠ "") (hs : sig ≠ "")
    (h4 : req.items = some items) (h5 : req.address = some address)
    (h6 : req.total = some total) (ht : total ≠ 0) :
    ((verifyPayment env req).inserted ≠ [] ↔
      (signatureOk env oid pid sig = true ∧ ∃ n, env.dbInsert = .ok n)) ∧
    (signatureOk env oid pid sig = false →
      (verifyPayment env req).status = 400 ∧
      (verifyPayment env req).inserted = [] ∧
      (verifyPayment env req).notifDispatches = 0) := by
  simp only [verifyPayment, h1, h2, h3, h4, h5, h6]
  rw [if_neg (show ¬(oid = "" ∨ pid = "" ∨ sig = "") by
        rintro (h | h | h)
        exacts [ho h, hp h, hs h])]
  rw [if_neg ht]
  cases hsig : signatureOk env oid pid sig with
  | true =>
    rw [if_pos rfl]
    cases hdb : env.dbInsert with
    | error e =>
      constructor
      · simp only [ne_eq, not_true_eq_false, false_iff, not_and]
        rintro - ⟨n, hn⟩
        cases hn
      · intro hf
        cases hf
    | ok n =>
      constructor
      · constructor
        · intro _
          exact ⟨rfl, n, rfl⟩
        · intro _
          simp
      · intro hf
        cases hf
  | false =>
    rw [if_neg (show ¬(false = true) by simp)]
    constructor
    · simp only [ne_eq, not_true_eq_false, false_iff, not_and]
      intro hcontra
      cases hcontra
    · intro _
      exact ⟨rfl, rfl, rfl⟩

/-- A fully-formed confirm-payment request whose signature matches under
`envX`. -/
def reqVerifyGood : VerifyReq :=
  { razorpay_order_id := some "o1", razorpay_payment_id := some "p1",
    razorpay_signature := some "k:o1|p1",
    items := some [{ name := "Book", price := 250, quantity := some 2 }],
    address := some addrX, total := some 500 }

/-- Witness for C2 (amended): on a well-formed request with a matching
signature and a succeeding store, a record is persisted. -/
theorem C2_persist_iff_signature_witness :
    signatureOk envX "o1" "p1" "k:o1|p1" = true ∧
    (verifyPayment envX reqVerifyGood).inserted ≠ [] :=
  ⟨by decide,
   (C2_persist_iff_signature envX reqVerifyGood "o1" "p1" "k:o1|p1"
      [{ name := "Book", price := 250, quantity := some 2 }] addrX 500
      rfl rfl rfl (by decide) (by decide) (by decide) rfl rfl rfl
      (by decide)).1.mpr ⟨by decide, 1, rfl⟩⟩

/-- The spec's paymentId invariant: `paymentId` present iff the method is
`prepaid` and the status `confirmed`. -/
def paymentIdInvariant (rec : OrderRecord) : Prop :=
  rec.paymentId.isSome = true ↔
    (rec.paymentMethod = "prepaid" ∧ rec.status = "confirmed")

instance (rec : OrderRecord) : Decidable (paymentIdInvariant rec) := by
  unfold paymentIdInvariant
  infer_instance

/-- Every record `createOrder` persists satisfies the paymentId invariant
and carries the validated (defaulted-quantity) total. -/
theorem createOrder_inserted_invariant (env : Env) (req : CreateOrderReq)
    (rec : OrderRecord) (h : rec ∈ (createOrder env req).inserted) :
    paymentIdInvariant rec ∧ rec.total = calculatedTotal rec.items := by
  rcases req with ⟨oitems, oaddr, opm, ototal⟩
  rcases oitems with _ | items
  · simp [createOrder] at h
  rcases oaddr with _ | address
  · simp [createOrder] at h
  rcases opm with _ | paymentMethod
  · simp [createOrder] at h
  rcases ototal with _ | total
  · simp [createOrder] at h
  simp only [createOrder] at h
  split at h
  · simp at h
  · split at h
    · simp at h
    · split at h
      · simp at h
      · rename_i hne
        split at h
        · split at h
          · simp at h
          · simp at h
        · split at h
          · rename_i hcod
            split at h
            · simp at h
            · rw [List.mem_singleton] at h
              subst h
              constructor
              · constructor
                · intro hsome
                  cases hsome
                · rintro ⟨hpm, -⟩
                  rw [show paymentMethod = "prepaid" from hpm] at hcod
                  exact absurd hcod (by decide)
              · exact (not_ne_iff.mp hne).symm
          · simp at h

/-- Every record `verifyPayment` persists satisfies the paymentId
invariant: it is always a confirmed prepaid order whose `paymentId` is the
gateway payment id. -/
theorem verifyPayment_inserted_invariant (env : Env) (req : VerifyReq)
    (rec : OrderRecord) (h : rec ∈ (verifyPayment env req).inserted) :
    paymentIdInvariant rec := by
  rcases req with ⟨ooid, opid, osig, oitems, oaddr, ototal⟩
  rcases ooid with _ | oid
  · simp [verifyPayment] at h
  rcases opid with _ | pid
  · simp [verifyPayment] at h
  rcases osig with _ | sig
  · simp [verifyPayment] at h
  simp only [verifyPayment] at h
  split at h
  · simp at h
  · split at h
    · split at h
      · simp at h
      · split at h
        · split at h
          · simp at h
          · rw [List.mem_singleton] at h
            subst h
            constructor
            · intro _
              exact ⟨rfl, rfl⟩
            · intro _
              rfl
        · simp at h
    · simp at h


/-- A confirm-payment request with a matching signature whose supplied
total (999) differs from the item sum (250 × 2 = 500). -/
def reqVerifyBadTotal : VerifyReq :=
  { razorpay_order_id := some "o1", razorpay_payment_id := some "p1",
    razorpay_signature := some "k:o1|p1",
    items := some [{ name := "Book", price := 250, quantity := some 2 }],
    address := some addrX, total := some 999 }

/-- Claim C6 counterexample: The claim requires every persisted record to
have `total = Σ unitPrice × quantity`, checked before any state
transition.  `verifyPayment` performs no total check: with a matching
signature it persists a record whose total is 999 while its items sum to
500. -/
theorem C6_counterexample :
    (verifyPayment envX reqVerifyBadTotal).inserted =
      [{ items := [{ name := "Book", price := 250, quantity := some 2 }],
         address := addrX, paymentMethod := "prepaid", total := 999,
         paymentId := some "p1", razorpayOrderId := some "o1",
         status := "confirmed", createdAt := 5 }] ∧
    calculatedTotal [{ name := "Book", price := 250, quantity := some 2 }] = 500 ∧
    (999 : Int) ≠ 500 := by
  refine ⟨by decide, by decide, by decide⟩

/-- A legacy direct-save request: prepaid with a payment id but status
`pending`. -/
def reqSaveBad : SaveOrderReq :=
  { items := some [{ name := "Book", price := 250, quantity := some 2 }],
    address := some addrX, paymentMethod := some "prepaid",
    total := some 500, paymentId := some "p9", status := some "pending" }

/-- Claim C6, amended: Records persisted by `createOrder` satisfy the
paymentId invariant and carry a total equal to the defaulted-quantity item
sum, checked before persisting; records persisted by `verifyPayment`
satisfy the paymentId invariant but their total is not checked; and
`saveOrder` persists the caller-supplied status and payment id unchecked,
so it can persist records violating the paymentId invariant. -/
theorem C6_persisted_invariants :
    (∀ (env : Env) (req : CreateOrderReq) (rec : OrderRecord),
      rec ∈ (createOrder env req).inserted →
        paymentIdInvariant rec ∧ rec.total = calculatedTotal rec.items) ∧
    (∀ (env : Env) (req : VerifyReq) (rec : OrderRecord),
      rec ∈ (verifyPayment env req).inserted → paymentIdInvariant rec) ∧
    (∃ (env : Env) (req : SaveOrderReq) (rec : OrderRecord),
      rec ∈ (saveOrder env req).inserted ∧ ¬ paymentIdInvariant rec) := by
  refine ⟨createOrder_inserted_invariant, verifyPayment_inserted_invariant,
    envX, reqSaveBad,
    { items := [{ name := "Book", price := 250, quantity := some 2 }],
      address := addrX, paymentMethod := "prepaid", total := 500,
      paymentId := some "p9", razorpayOrderId := none,
      status := "pending", createdAt := 5 }, by decide, by decide⟩

/-- Witness for C6 (amended) at a concrete COD persist and a concrete
prepaid persist. -/
theorem C6_persisted_invariants_witness :
    (paymentIdInvariant
      { items := [{ name := "Book", price := 250, quantity := some 2 }],
        address := addrX, paymentMethod := "cod", total := 500,
        paymentId := none, razorpayOrderId := none,
        status := "confirmed", createdAt := 5 } ∧
     (500 : Int) = calculatedTotal
        [{ name := "Book", price := 250, quantity := some 2 }]) ∧
    paymentIdInvariant
      { items := [{ name := "Book", price := 250, quantity := some 2 }],
        address := addrX, paymentMethod := "prepaid", total := 999,
        paymentId := some "p1", razorpayOrderId := some "o1",
        status := "confirmed", createdAt := 5 } :=
  ⟨C6_persisted_invariants.1 envX reqCod _ (by decide),
   C6_persisted_invariants.2.1 envX reqVerifyBadTotal _ (by decide)⟩

/-- A `sendMessage` whose underlying transport send throws reports a
failed (caught, not raised) outcome. -/
theorem sendMessage_fail_of_send_error (env : NotifEnv) (phone message e : String)
    (hready : env.waReady = true)
    (hreg : env.waRegistered (waFinalNumber phone ++ "@c.us") = true)
    (hfail : env.waSendResult (waFinalNumber phone ++ "@c.us") = .error e) :
    (sendMessage env phone message).success = false := by
  simp only [sendMessage, hready, hreg, hfail, Bool.not_true]
  rfl

/-- A `sendTextSMS` whose Twilio call succeeds reports a delivered
outcome. -/
theorem sendTextSMS_success_of_ok (env : NotifEnv) (phone message sid : String)
    (hsms : env.smsSendResult ("+" ++ smsFinalNumber phone) = .ok sid) :
    (sendTextSMS env phone message).success = true := by
  simp only [sendTextSMS, hsms]

/-- Claim C9: Notification dispatch never raises (it is a total function of
the transport environment) and never short-circuits: when the customer
WhatsApp send throws and the customer SMS send succeeds, the dispatcher
still returns one outcome per channel — the WhatsApp outcome marked
`Failed`, the SMS outcome marked `Sent` — so the failure of one channel
does not prevent attempting the others. -/
theorem C9_dispatch_mixed_outcomes (env : NotifEnv) (address : Address)
    (items : List Item) (total : Int) (paymentMethod : String)
    (paymentId : Option String) (phone e sid : String)
    (hphone : address.phone = some phone)
    (hready : env.waReady = true)
    (hreg : env.waRegistered (waFinalNumber phone ++ "@c.us") = true)
    (hfail : env.waSendResult (waFinalNumber phone ++ "@c.us") = .error e)
    (hsms : env.smsSendResult ("+" ++ smsFinalNumber phone) = .ok sid) :
    (sendNotifications env address items total paymentMethod paymentId).length = 3 ∧
    (sendNotifications env address items total paymentMethod paymentId).lookup
      "customer" = some "Failed" ∧
    (sendNotifications env address items total paymentMethod paymentId).lookup
      "sms" = some "Sent" := by
  have hcust : (sendMessage env (jsStr address.phone)
      (generateCustomerMessage address total paymentMethod)).success = false := by
    rw [hphone]
    exact sendMessage_fail_of_send_error env phone _ e hready hreg hfail
  have hsmsr : (sendTextSMS env (jsStr address.phone)
      (generateCustomerMessage address total paymentMethod)).success = true := by
    rw [hphone]
    exact sendTextSMS_success_of_ok env phone _ sid hsms
  refine ⟨rfl, ?_, ?_⟩ <;>
    simp [sendNotifications, List.lookup, hcust, hsmsr]

/-- A notification environment where the customer WhatsApp send throws
(`"boom"`) while every other transport call succeeds. -/
def notifMixed : NotifEnv :=
  { waReady := true, waRegistered := fun _ => true,
    waSendResult := fun chatId =>
      if chatId = "9111111111@c.us" then .error "boom" else .ok (some "m2"),
    smsSendResult := fun _ => .ok "s2", now := 7 }

/-- The address of the partial-failure scenario. -/
def addrY : Address :=
  { fullName := some "Ravi Patel", street := some "4 Hill St", city := some "Pune",
    state := some "MH", zipCode := some "411001", email := some "ravi@example.com",
    phone := some "9111111111" }

/-- Witness for C9 at a concrete environment where the customer WhatsApp
send throws and the SMS send succeeds. -/
theorem C9_dispatch_mixed_outcomes_witness :
    (sendNotifications notifMixed addrY [] 100 "cod" none).length = 3 ∧
    (sendNotifications notifMixed addrY [] 100 "cod" none).lookup
      "customer" = some "Failed" ∧
    (sendNotifications notifMixed addrY [] 100 "cod" none).lookup
      "sms" = some "Sent" :=
  C9_dispatch_mixed_outcomes notifMixed addrY [] 100 "cod" none
    "9111111111" "boom" "s2" rfl rfl (by decide) (by rfl) (by rfl)

/-- Claim C10: An item whose quantity is absent, null or `0` is counted as
quantity 1 when computing the sum the supplied total must equal, so a
request whose total matches the sum computed with those defaulted
quantities is never rejected with the total-mismatch validation error. -/
theorem C10_quantity_defaulting :
    (∀ it : Item, it.quantity = none ∨ it.quantity = some 0 → itemQty it = 1) ∧
    (∀ (env : Env) (items : List Item) (address : Address)
       (paymentMethod : String) (total : Int),
      paymentMethod ≠ "" → total ≠ 0 →
      firstMissingAddressField address = none →
      calculatedTotal items = total →
      ¬ ((createOrder env
            { items := some items, address := some address,
              paymentMethod := some paymentMethod,
              total := some total }).status = 400 ∧
         (createOrder env
            { items := some items, address := some address,
              paymentMethod := some paymentMethod,
              total := some total }).body =
           RespBody.error "Total does not match the sum of item prices")) := by
  constructor
  · intro it hq
    rcases hq with hq | hq <;> simp [itemQty, hq]
  · intro env items address paymentMethod total hpm h0 hmiss htot
    simp only [createOrder, hmiss]
    rw [if_neg (show ¬(paymentMethod = "" ∨ total = 0) by
          rintro (h | h)
          exacts [hpm h, h0 h])]
    rw [if_neg (not_not_intro htot)]
    by_cases hpre : paymentMethod = "prepaid"
    · rw [if_pos hpre]
      cases env.rzpCreate (total * 100) "INR" ("receipt_" ++ toString env.now) with
      | ok o =>
        rintro ⟨hst, -⟩
        cases hst
      | error e =>
        rintro ⟨hst, -⟩
        cases hst
    · rw [if_neg hpre]
      by_cases hcod : paymentMethod = "cod"
      · rw [if_pos hcod]
        cases env.dbInsert with
        | ok n =>
          rintro ⟨hst, -⟩
          cases hst
        | error e =>
          rintro ⟨hst, -⟩
          cases hst
      · rw [if_neg hcod]
        rintro ⟨-, hbody⟩
        have := RespBody.error.inj hbody
        exact absurd this (by decide)

/-- Witness for C10 at a concrete request: one item with an absent
quantity and one with quantity 0, each counted once, so total 10 = 7 + 3
passes validation. -/
theorem C10_quantity_defaulting_witness :
    itemQty { name := "a", price := 7, quantity := none } = 1 ∧
    itemQty { name := "b", price := 3, quantity := some 0 } = 1 ∧
    ¬ ((createOrder envX
          { items := some [{ name := "a", price := 7, quantity := none },
                           { name := "b", price := 3, quantity := some 0 }],
            address := some addrX, paymentMethod := some "cod",
            total := some 10 }).status = 400 ∧
       (createOrder envX
          { items := some [{ name := "a", price := 7, quantity := none },
                           { name := "b", price := 3, quantity := some 0 }],
            address := some addrX, paymentMethod := some "cod",
            total := some 10 }).body =
         RespBody.error "Total does not match the sum of item prices") :=
  ⟨C10_quantity_defaulting.1 _ (Or.inl rfl),
   C10_quantity_defaulting.1 _ (Or.inr rfl),
   C10_quantity_defaulting.2 envX
     [{ name := "a", price := 7, quantity := none },
      { name := "b", price := 3, quantity := some 0 }]
     addrX "cod" 10 (by decide) (by decide) (by decide) (by decide)⟩

end BookBackend
